import Mathlib

/-!
Verification of the SemaFlow HTTP/handle layer (src/semaflow/api.py,
src/semaflow/handle.py) against its natural-language specification.

Python dynamic values are embedded as the inductive type PyVal; raised
exceptions as PyExc inside Except.  Definitions are translated from the
Python source; the Rust core (semaflow_core) is absent from the sources,
so the few operations it provides are modelled from the specification and
marked as such in their doc comments.
-/

namespace SemaFlow

/-- Embedding of the Python values the API layer manipulates. -/
inductive PyVal where
  | pynone
  | pybool (b : Bool)
  | pyint (n : Int)
  | pystr (s : String)
  | pylist (xs : List PyVal)
  | pydict (entries : List (String × PyVal))
deriving Repr

/-- A Python dict with string keys, as the ordered association list that
CPython dicts preserve. -/
abbrev PyDict := List (String × PyVal)

/-- Python d.get(k): the first binding of k, or None when absent. -/
def pyGet (d : PyDict) (k : String) : PyVal :=
  match d with
  | [] => .pynone
  | (k₀, v) :: rest => if k₀ = k then v else pyGet rest k

/-- Python d.get(k, default). -/
def pyGetD (d : PyDict) (k : String) (dflt : PyVal) : PyVal :=
  match d with
  | [] => dflt
  | (k₀, v) :: rest => if k₀ = k then v else pyGetD rest k dflt

/-- Python d[k] = v: replace the first binding in place, else append
(CPython insertion-order semantics). -/
def setKey (d : PyDict) (k : String) (v : PyVal) : PyDict :=
  match d with
  | [] => [(k, v)]
  | (k₀, v₀) :: rest =>
      if k₀ = k then (k₀, v) :: rest else (k₀, v₀) :: setKey rest k v

/-- Membership of a key in a dict. -/
def hasKey (d : PyDict) (k : String) : Bool :=
  match d with
  | [] => false
  | (k₀, _) :: rest => k₀ = k || hasKey rest k

/-- Python truthiness of the embedded values. -/
def pyTruthy : PyVal → Bool
  | .pynone => false
  | .pybool b => b
  | .pyint n => n != 0
  | .pystr s => s ≠ ""
  | .pylist xs => !xs.isEmpty
  | .pydict d => !d.isEmpty

/-- Python x if isinstance(x, str) else None, the shape used by the API
when it sanitizes descriptions and data types. -/
def strOrNone : PyVal → Option String
  | .pystr s => some s
  | _ => none

/-- An exception escaping a FastAPI handler: either an HTTPException with
a status code and detail, or any other Python exception with its message. -/
inductive PyExc where
  | http (status : Nat) (detail : String)
  | other (msg : String)
deriving Repr, DecidableEq

/-- str(exc) for the embedded exceptions; HTTPException stringifies to
"status: detail" (starlette behaviour). -/
def excStr : PyExc → String
  | .http s d => toString s ++ ": " ++ d
  | .other m => m

/-- The except-Exception wrapper in describe_flow and query: every escaping
exception, HTTPException included, is re-raised as a 400 whose detail is
str(exc). -/
def tryWrap {α : Type} : Except PyExc α → Except PyExc α
  | .ok a => .ok a
  | .error e => .error (.http 400 (excStr e))

/-- HTTP status observed by a client for a handler outcome. -/
def statusOf {α : Type} : Except PyExc α → Nat
  | .ok _ => 200
  | .error (.http s _) => s
  | .error (.other _) => 500

/-- Replace the first binding of a key, else append, in an association
list: CPython dict assignment semantics at any value type. -/
def assocSet {α : Type} (d : List (String × α)) (k : String) (v : α) :
    List (String × α) :=
  match d with
  | [] => [(k, v)]
  | (k₀, v₀) :: rest =>
      if k₀ = k then (k₀, v) :: rest else (k₀, v₀) :: assocSet rest k v

/-- Catalog seen by the renderer: one base table under one alias.
Modelled from the spec: the Rust core's catalog is not under src; §3 and
§4.3 fix what the renderer reads from it. -/
structure Catalog where
  baseTable : String
  baseAlias : String
deriving Repr, DecidableEq

/-- The core request shape of §6, as the Rust validator receives it. -/
structure QueryRequest where
  flow : String
  dimensions : List String
  measures : List String
  limit : Option Int
  offset : Option Int
  page_size : Option Int
  cursor : Option String
deriving Repr, DecidableEq

/-- Quote an identifier unconditionally with double quotes (§4.4
identifier policy, duckdb/postgres form). -/
def quoteIdent (s : String) : String := "\"" ++ s ++ "\""

/-- Comma-join rendered items. -/
def commaJoin : List String → String
  | [] => ""
  | [x] => x
  | x :: rest => x ++ ", " ++ commaJoin rest

/-- Modelled from the spec: the Rust core's build_sql (absent from src).
§4.3/§8 require the emitted SQL to be a pure deterministic function of
the catalog and the validated request, with projection order following
the request and pagination rendered as LIMIT/OFFSET.  This renderer
realises that contract on the modelled catalog. -/
def buildSqlCore (cat : Catalog) (r : QueryRequest) : String :=
  "SELECT " ++ commaJoin ((r.dimensions ++ r.measures).map quoteIdent) ++
  " FROM " ++ quoteIdent cat.baseTable ++ " AS " ++ quoteIdent cat.baseAlias ++
  (if r.dimensions.isEmpty then ""
   else " GROUP BY " ++ commaJoin (r.dimensions.map quoteIdent)) ++
  (match r.limit with
   | some n => " LIMIT " ++ toString n
   | none => "") ++
  (match r.offset with
   | some n => " OFFSET " ++ toString n
   | none => "")

/-- Validation error kinds listed by §4.2 of the spec. -/
inductive ValidationErr where
  | unknownFlow
  | unknownField
  | ambiguous
  | typeMismatch
  | unsupportedOp
  | malformedPagination
deriving Repr, DecidableEq

/-- Modelled from the spec: the pagination shape check of the Rust
validator (absent from src).  §6: exactly one of (limit, offset) or
(page_size, cursor) may be used; both pairs absent is allowed; mixing
the pairs is a MalformedPagination error. -/
def checkPagination (r : QueryRequest) : Except ValidationErr Unit :=
  if (r.limit.isSome || r.offset.isSome) &&
     (r.page_size.isSome || r.cursor.isSome)
  then .error .malformedPagination
  else .ok ()

/-- Modelled from the spec: the state the Rust SemanticFlowHandle exposes
to the Python wrapper (absent from src): flow summaries for list_flows,
per-name schema dicts for get_flow, and the immutable catalog that
build_sql reads. -/
structure InnerHandle where
  summaries : List PyDict
  flowSchemas : List (String × PyDict)
  catalog : Catalog

/-- Modelled from the spec: Rust SemanticFlowHandle.get_flow returns the
named flow's schema dict, raising UnknownFlow for an absent name. -/
def InnerHandle.get_flow (h : InnerHandle) (name : String) :
    Except PyExc PyDict :=
  match h.flowSchemas.lookup name with
  | some s => .ok s
  | none => .error (.other ("UnknownFlow: " ++ name))

/-- Modelled from the spec: Rust SemanticFlowHandle.list_flows returns
the flow summaries. -/
def InnerHandle.list_flows (h : InnerHandle) : List PyDict := h.summaries

/-- The Python FlowHandle wrapper (handle.py): an inner Rust handle plus
a description attribute. -/
structure FlowHandle where
  inner : InnerHandle
  description : Option String

/-- handle.py get_flow: delegate to the inner handle. -/
def FlowHandle.get_flow (h : FlowHandle) (name : String) :
    Except PyExc PyDict :=
  h.inner.get_flow name

/-- handle.py subscript access: delegate to the inner handle's get_flow. -/
def FlowHandle.getitem (h : FlowHandle) (key : String) :
    Except PyExc PyDict :=
  h.inner.get_flow key

/-- handle.py list_flows: delegate to the inner handle. -/
def FlowHandle.list_flows (h : FlowHandle) : List PyDict :=
  h.inner.list_flows

/-- handle.py build_sql: awaiting asyncio.to_thread returns exactly the
inner build_sql value on the given request. -/
def FlowHandle.build_sql (h : FlowHandle) (r : QueryRequest) : String :=
  buildSqlCore h.inner.catalog r

/-- Python membership of a str in a collection of arbitrary values: str
equality against a non-str is False. -/
def containsStr (vs : List PyVal) (s : String) : Bool :=
  match vs with
  | [] => false
  | .pystr t :: rest => t = s || containsStr rest s
  | _ :: rest => containsStr rest s

/-- api.py _ensure_flow: collect m.get("name") over the summaries and
raise HTTPException 404 when the path flow name is not among them. -/
def ensureFlow (h : FlowHandle) (flowName : String) : Except PyExc Unit :=
  if containsStr ((FlowHandle.list_flows h).map (fun m => pyGet m "name"))
       flowName
  then .ok ()
  else .error (.http 404 ("unknown flow " ++ flowName))

/-- Loop body of the GET /flows handler: fold the summaries into the
name → description map, raising 500 on a missing name or a bad
description type. -/
def listFlowsGo (summaries : List PyDict)
    (acc : List (String × Option String)) :
    Except PyExc (List (String × Option String)) :=
  match summaries with
  | [] => .ok acc
  | s :: rest =>
      match pyGet s "name" with
      | .pystr name =>
          match pyGet s "description" with
          | .pynone => listFlowsGo rest (assocSet acc name none)
          | .pystr d => listFlowsGo rest (assocSet acc name (some d))
          | _ =>
              .error (.http 500
                ("flow " ++ name ++ " description must be a string or None"))
      | _ => .error (.http 500 "flow summary missing name")

/-- api.py GET /flows handler (no surrounding try, so the 500s escape
as raised). -/
def listFlowsEndpoint (h : FlowHandle) :
    Except PyExc (List (String × Option String)) :=
  listFlowsGo (FlowHandle.list_flows h) []

/-- One entry of the dimensions/measures maps returned by
GET /flows/\x7bflow\x7d. -/
structure FieldInfo where
  description : Option String
  data_type : Option String
deriving Repr, DecidableEq

/-- api.py FlowSchemaResponse. -/
structure FlowSchemaResponse where
  name : String
  description : Option String
  time_dimension : Option String
  dimensions : List (String × FieldInfo)
  measures : List (String × FieldInfo)
deriving Repr, DecidableEq

/-- Python iteration over a value: lists yield elements, strings yield
one-character strings, dicts yield their keys, anything else raises
TypeError. -/
def pyIter : PyVal → Except PyExc (List PyVal)
  | .pylist xs => .ok xs
  | .pystr s => .ok (s.toList.map (fun c => .pystr (String.mk [c])))
  | .pydict d => .ok (d.map (fun kv => .pystr kv.1))
  | _ => .error (.other "TypeError: object is not iterable")

/-- Field-map loop of describe_flow, shared verbatim between dimensions
(label "dimension") and measures (label "measure"): each item must be a
dict; the key is qualified_name or name (Python or: first truthy); the
entry keeps only str-typed description and data_type, else None. -/
def buildFieldMap (flowName : String) (label : String)
    (items : List PyVal) (acc : List (String × FieldInfo)) :
    Except PyExc (List (String × FieldInfo)) :=
  match items with
  | [] => .ok acc
  | .pydict d :: rest =>
      let rawName :=
        if pyTruthy (pyGet d "qualified_name") then pyGet d "qualified_name"
        else pyGet d "name"
      match rawName with
      | .pystr fname =>
          buildFieldMap flowName label rest
            (assocSet acc fname
              ⟨strOrNone (pyGet d "description"),
               strOrNone (pyGet d "data_type")⟩)
      | _ =>
          .error (.http 500
            (label ++ " name missing in flow " ++ flowName))
  | _ :: _ =>
      .error (.http 500 ("invalid " ++ label ++ " in flow " ++ flowName))

/-- Body of the GET /flows/\x7bflow\x7d handler before its except-Exception
wrapper. -/
def describeFlowBody (h : FlowHandle) (flow : String) :
    Except PyExc FlowSchemaResponse := do
  ensureFlow h flow
  let schema ← FlowHandle.get_flow h flow
  let name ←
    match pyGet schema "name" with
    | .pystr n => pure n
    | _ => throw (.http 500 "flow schema missing name")
  let description ←
    match pyGet schema "description" with
    | .pynone => pure none
    | .pystr s => pure (some s)
    | _ =>
        throw (.http 500
          ("flow " ++ name ++ " description must be a string or None"))
  let dims ← pyIter (pyGetD schema "dimensions" (.pylist []))
  let dimsMap ← buildFieldMap name "dimension" dims []
  let meas ← pyIter (pyGetD schema "measures" (.pylist []))
  let measMap ← buildFieldMap name "measure" meas []
  let timeDim ←
    match pyGet schema "time_dimension" with
    | .pynone => pure none
    | .pystr s => pure (some s)
    | _ => throw (.other "pydantic validation failure for time_dimension")
  pure ⟨name, description, timeDim, dimsMap, measMap⟩

/-- api.py GET /flows/\x7bflow\x7d handler: the body under the
except-Exception wrapper that re-raises everything as 400. -/
def describeFlow (h : FlowHandle) (flow : String) :
    Except PyExc FlowSchemaResponse :=
  tryWrap (describeFlowBody h flow)

/-- api.py Filter model: field, operator and arbitrary value. -/
structure Filter where
  field : String
  op : String
  value : PyVal

/-- The FilterOp enumeration values of api.py. -/
def filterOps : List String :=
  ["==", "!=", ">", ">=", "<", "<=", "in", "not in", "like", "ilike"]

/-- api.py OrderItem model: column and direction. -/
structure OrderItem where
  column : String
  direction : String

/-- The OrderDirection enumeration values of api.py. -/
def orderDirections : List String := ["asc", "desc"]

/-- api.py QueryPayload: exactly the six declared request-body fields;
page_size, cursor and flow are NOT fields of this model. -/
structure QueryPayload where
  dimensions : Option (List String)
  measures : Option (List String)
  filters : Option (List Filter)
  order : Option (List OrderItem)
  limit : Option Int
  offset : Option Int

/-- Pydantic validation of an Optional list-of-str field. -/
def parseStrList (v : PyVal) : Except String (Option (List String)) :=
  match v with
  | .pynone => .ok none
  | .pylist xs => (goList xs).map some
  | _ => .error "value is not a valid list"
where
  goList : List PyVal → Except String (List String)
    | [] => .ok []
    | .pystr s :: rest => (goList rest).map (fun ss => s :: ss)
    | _ :: _ => .error "str type expected"

/-- Pydantic validation of one Filter object: field and op must be
strings, op must be a FilterOp value, value must be present. -/
def parseFilter (v : PyVal) : Except String Filter :=
  match v with
  | .pydict d =>
      match pyGet d "field", pyGet d "op" with
      | .pystr f, .pystr o =>
          if filterOps.contains o then
            if hasKey d "value" then .ok ⟨f, o, pyGet d "value"⟩
            else .error "field required: value"
          else .error "value is not a valid FilterOp"
      | _, _ => .error "value is not a valid Filter"
  | _ => .error "value is not a valid Filter"

/-- Pydantic validation of the Optional filters list. -/
def parseFilters (v : PyVal) : Except String (Option (List Filter)) :=
  match v with
  | .pynone => .ok none
  | .pylist xs => (goFilters xs).map some
  | _ => .error "value is not a valid list"
where
  goFilters : List PyVal → Except String (List Filter)
    | [] => .ok []
    | x :: rest => do
        let f ← parseFilter x
        let fs ← goFilters rest
        .ok (f :: fs)

/-- Pydantic validation of one OrderItem object. -/
def parseOrderItem (v : PyVal) : Except String OrderItem :=
  match v with
  | .pydict d =>
      match pyGet d "column", pyGet d "direction" with
      | .pystr c, .pystr dir =>
          if orderDirections.contains dir then .ok ⟨c, dir⟩
          else .error "value is not a valid OrderDirection"
      | _, _ => .error "value is not a valid OrderItem"
  | _ => .error "value is not a valid OrderItem"

/-- Pydantic validation of the Optional order list. -/
def parseOrder (v : PyVal) : Except String (Option (List OrderItem)) :=
  match v with
  | .pynone => .ok none
  | .pylist xs => (goOrder xs).map some
  | _ => .error "value is not a valid list"
where
  goOrder : List PyVal → Except String (List OrderItem)
    | [] => .ok []
    | x :: rest => do
        let o ← parseOrderItem x
        let os ← goOrder rest
        .ok (o :: os)

/-- Pydantic validation of an Optional int field. -/
def parseIntOpt (v : PyVal) : Except String (Option Int) :=
  match v with
  | .pynone => .ok none
  | .pyint n => .ok (some n)
  | _ => .error "value is not a valid integer"

/-- Pydantic construction of a QueryPayload from the JSON request body:
only the six declared fields are read; every other body key (flow,
page_size, cursor, ...) is ignored, the pydantic default for extra
fields. -/
def parseQueryPayload (body : PyDict) : Except String QueryPayload := do
  let dims ← parseStrList (pyGet body "dimensions")
  let meas ← parseStrList (pyGet body "measures")
  let fils ← parseFilters (pyGet body "filters")
  let ord ← parseOrder (pyGet body "order")
  let lim ← parseIntOpt (pyGet body "limit")
  let off ← parseIntOpt (pyGet body "offset")
  .ok ⟨dims, meas, fils, ord, lim, off⟩

/-- Serialization of a Filter back to a dict, as pydantic .dict() does
for nested models. -/
def filterToPy (f : Filter) : PyVal :=
  .pydict [("field", .pystr f.field), ("op", .pystr f.op),
           ("value", f.value)]

/-- Serialization of an OrderItem back to a dict. -/
def orderToPy (o : OrderItem) : PyVal :=
  .pydict [("column", .pystr o.column), ("direction", .pystr o.direction)]

/-- req.dict(exclude_none=True): one dict entry per declared field whose
value is not None, in field declaration order. -/
def dictExcludeNone (p : QueryPayload) : PyDict :=
  (match p.dimensions with
   | none => []
   | some xs => [("dimensions", .pylist (xs.map .pystr))]) ++
  (match p.measures with
   | none => []
   | some xs => [("measures", .pylist (xs.map .pystr))]) ++
  (match p.filters with
   | none => []
   | some fs => [("filters", .pylist (fs.map filterToPy))]) ++
  (match p.order with
   | none => []
   | some os => [("order", .pylist (os.map orderToPy))]) ++
  (match p.limit with
   | none => []
   | some n => [("limit", .pyint n)]) ++
  (match p.offset with
   | none => []
   | some n => [("offset", .pyint n)])

/-- api.py query handler lines 196-197: payload = req.dict(
exclude_none=True) followed by payload["flow"] = flow. -/
def forwardedPayload (flow : String) (p : QueryPayload) : PyDict :=
  setKey (dictExcludeNone p) "flow" (.pystr flow)

/-- api.py POST /flows/\x7bflow\x7d/query handler, parameterized by the
handle's execute (the Rust core, absent from src): ensure the flow,
forward the payload, and re-raise every escaping exception as 400. -/
def queryEndpoint (h : FlowHandle)
    (execute : PyDict → Except PyExc PyVal) (flow : String)
    (req : QueryPayload) : Except PyExc PyVal :=
  tryWrap (do
    ensureFlow h flow
    execute (forwardedPayload flow req))

/-- A data-source descriptor (core.py DataSource, absent from src: only
its name is read by build_flow_handles). -/
structure DataSource where
  name : String
deriving Repr, DecidableEq

/-- A semantic table as build_flow_handles reads it: its name and the
result of its data_source() accessor. -/
structure SemanticTable where
  name : String
  data_source : Option DataSource
deriving Repr, DecidableEq

/-- A semantic flow as build_flow_handles reads it: the list returned by
referenced_tables(). -/
structure SemanticFlow where
  referenced_tables : List SemanticTable
deriving Repr, DecidableEq

/-- A value of the flows mapping: a SemanticFlow or anything else. -/
inductive FlowsVal where
  | flowVal (f : SemanticFlow)
  | otherVal
deriving Repr, DecidableEq

/-- The argument passed to build_flow_handles: a Mapping (with its
ordered entries) or any non-Mapping value. -/
inductive FlowsArg where
  | mapping (entries : List (String × FlowsVal))
  | notMapping
deriving Repr, DecidableEq

/-- The exceptions build_flow_handles can raise. -/
inductive PyError where
  | typeError (msg : String)
  | valueError (msg : String)
deriving Repr, DecidableEq

/-- The product handed to FlowHandle.from_parts. -/
structure BuiltHandle where
  tables : List SemanticTable
  flows : List SemanticFlow
  data_sources : List DataSource
deriving Repr, DecidableEq

/-- The ValueError message of build_flow_handles. -/
def dsMsg : String :=
  "tables must be constructed with a DataSource instance; pass DataSource(...) into SemanticTable"

/-- The TypeError messages of build_flow_handles. -/
def notMappingMsg : String :=
  "flows must be a non-empty mapping of name -> SemanticFlow"

def badValueMsg : String := "flows values must be SemanticFlow objects"

/-- Inner table loop of build_flow_handles: setdefault into
unique_tables, then require a data source, then dict-assign it into
data_sources. -/
def addTables (uniq : List (String × SemanticTable))
    (dss : List (String × DataSource)) :
    List SemanticTable →
    Except PyError (List (String × SemanticTable) × List (String × DataSource))
  | [] => .ok (uniq, dss)
  | t :: rest =>
      let uniq1 :=
        if (uniq.lookup t.name).isSome then uniq else uniq ++ [(t.name, t)]
      match t.data_source with
      | none => .error (.valueError dsMsg)
      | some ds => addTables uniq1 (assocSet dss ds.name ds) rest

/-- Outer loop of build_flow_handles over the mapping entries, in
iteration order. -/
def buildLoop (uniq : List (String × SemanticTable))
    (dss : List (String × DataSource)) (flowAcc : List SemanticFlow) :
    List (String × FlowsVal) →
    Except PyError
      (List (String × SemanticTable) × List (String × DataSource) ×
       List SemanticFlow)
  | [] => .ok (uniq, dss, flowAcc)
  | (_, .otherVal) :: _ => .error (.typeError badValueMsg)
  | (_, .flowVal f) :: rest => do
      let ud ← addTables uniq dss f.referenced_tables
      buildLoop ud.1 ud.2 (flowAcc ++ [f]) rest

/-- handle.py build_flow_handles: reject a non-Mapping or empty
argument, walk the entries accumulating tables, flows and data sources,
and hand the result to from_parts. -/
def build_flow_handles : FlowsArg → Except PyError BuiltHandle
  | .notMapping => .error (.typeError notMappingMsg)
  | .mapping [] => .error (.typeError notMappingMsg)
  | .mapping (e :: rest) => do
      let res ← buildLoop [] [] [] (e :: rest)
      .ok (BuiltHandle.mk (res.1.map Prod.snd) res.2.2
        (res.2.1.map Prod.snd))

/-- A kind tag separating the two exception classes. -/
inductive Offense where
  | tErr
  | vErr
deriving Repr, DecidableEq

/-- Project out which exception class (if any) a build result carries. -/
def resultOffense : Except PyError BuiltHandle → Option Offense
  | .error (.typeError _) => some .tErr
  | .error (.valueError _) => some .vErr
  | .ok _ => none

/-- First offense of the mapping entries in iteration order: a
non-SemanticFlow value is a TypeError; a referenced table with no data
source is a ValueError; the first one encountered wins. -/
def firstOffense : List (String × FlowsVal) → Option Offense
  | [] => none
  | (_, .otherVal) :: _ => some .tErr
  | (_, .flowVal f) :: rest =>
      if f.referenced_tables.any (fun t => t.data_source.isNone)
      then some .vErr
      else firstOffense rest

/-- Which exception class (if any) a build result carries, at any
success type. -/
def offenseOf {α : Type} : Except PyError α → Option Offense
  | .error (.typeError _) => some .tErr
  | .error (.valueError _) => some .vErr
  | .ok _ => none

/-- The name of a summary or schema when it is a string, else "". -/
def nameStr (s : PyDict) : String :=
  match pyGet s "name" with
  | .pystr n => n
  | _ => ""

/-- Well-formedness of one flow summary: a string name and a description
that is a string or None. -/
def summaryWF (s : PyDict) : Prop :=
  (∃ n, pyGet s "name" = .pystr n) ∧
  (pyGet s "description" = .pynone ∨ ∃ d, pyGet s "description" = .pystr d)

/-- The flow-map entry the GET /flows loop derives from a summary. -/
def summaryEntry (s : PyDict) : String × Option String :=
  (nameStr s, strOrNone (pyGet s "description"))

/-- The qualified name of a dimension/measure dict as describe_flow
computes it, when it is a string, else "". -/
def fieldKey (d : PyDict) : String :=
  match (if pyTruthy (pyGet d "qualified_name") then pyGet d "qualified_name"
         else pyGet d "name") with
  | .pystr n => n
  | _ => ""

/-- The entry the describe_flow field loop derives from one field dict. -/
def fieldEntry (d : PyDict) : String × FieldInfo :=
  (fieldKey d,
   ⟨strOrNone (pyGet d "description"), strOrNone (pyGet d "data_type")⟩)

/-- Concrete fixtures used by the closed theorems below, mirroring the
simple_orders fixture of the repository tests. -/
def sampleSummaries : List PyDict :=
  [[("name", .pystr "simple_orders"), ("description", .pynone)]]

def sampleDimDicts : List PyDict :=
  [[("qualified_name", .pystr "o.status"),
    ("description", .pynone),
    ("data_type", .pystr "VARCHAR")]]

def sampleMeasDicts : List PyDict :=
  [[("qualified_name", .pystr "o.order_total"),
    ("description", .pystr "sum of amount"),
    ("data_type", .pyint 3)]]

def sampleDims : List PyVal := sampleDimDicts.map PyVal.pydict

def sampleMeasures : List PyVal := sampleMeasDicts.map PyVal.pydict

def sampleSchema : PyDict :=
  [("name", .pystr "simple_orders"),
   ("description", .pystr "orders rolled up"),
   ("time_dimension", .pynone),
   ("dimensions", .pylist sampleDims),
   ("measures", .pylist sampleMeasures)]

def sampleInner : InnerHandle :=
  ⟨sampleSummaries, [("simple_orders", sampleSchema)], ⟨"orders", "o"⟩⟩

def sampleHandle : FlowHandle := ⟨sampleInner, none⟩

def emptyPayload : QueryPayload := ⟨none, none, none, none, none, none⟩

/-- An execute stub that echoes the payload it was handed. -/
def echoExec : PyDict → Except PyExc PyVal := fun d => .ok (.pydict d)

/-- A request body carrying page_size, as the repository's pagination
tests send it. -/
def bodyWithPageSize : PyDict :=
  [("dimensions", .pylist [.pystr "o.status"]),
   ("measures", .pylist [.pystr "o.order_total"]),
   ("page_size", .pyint 1)]

/-- What pydantic makes of bodyWithPageSize. -/
def pagePayload : QueryPayload :=
  ⟨some ["o.status"], some ["o.order_total"], none, none, none, none⟩

/-- A request body trying to smuggle a flow name past the path segment. -/
def bodyWithFlow : PyDict := [("flow", .pystr "evil"), ("limit", .pyint 1)]

/-- What pydantic makes of bodyWithFlow. -/
def flowPayload : QueryPayload := ⟨none, none, none, none, some 1, none⟩

/-- A request mixing limit with page_size. -/
def mixedRequest : QueryRequest :=
  ⟨"sales", ["c.country"], ["o.order_total"], some 10, none, some 5, none⟩

/-- A request using no pagination at all. -/
def plainRequest : QueryRequest :=
  ⟨"sales", ["c.country"], ["o.order_total"], none, none, none, none⟩

/-- flows mapping whose first value is a flow lacking a data source and
whose second value is not a SemanticFlow. -/
def cxEntries : List (String × FlowsVal) :=
  [("a", .flowVal ⟨[⟨"t", none⟩]⟩), ("b", .otherVal)]

/-- flows mapping whose only value is not a SemanticFlow. -/
def wEntries : List (String × FlowsVal) := [("a", .otherVal)]

/-- Boolean test for the embedded Python None. -/
def noneValued : PyVal → Bool
  | .pynone => true
  | _ => false

/-- Claim C9: for every FlowHandle h and flow name k, the subscript
access h[k] returns exactly the same result as h.get_flow(k): both
delegate to the single inner get_flow operation. -/
theorem c9_getitem_eq_get_flow (h : FlowHandle) (k : String) :
    FlowHandle.getitem h k = FlowHandle.get_flow h k :=
  rfl

/-- Claim C3: for any fixed catalog and any fixed validated request,
every two calls to build_sql return byte-identical SQL strings: the
output is a function of the inner handle state (catalog) and the
request alone, unaffected by anything else on the wrapper such as its
description. -/
theorem c3_build_sql_deterministic (h₁ h₂ : FlowHandle) (r : QueryRequest)
    (hinner : h₁.inner = h₂.inner) :
    FlowHandle.build_sql h₁ r = FlowHandle.build_sql h₂ r := by
  simp [FlowHandle.build_sql, hinner]

/-- Witness for C3 at concrete handles sharing an inner state but
differing in description. -/
theorem c3_build_sql_deterministic_witness :
    (FlowHandle.mk sampleInner none).inner =
      (FlowHandle.mk sampleInner (some "demo")).inner ∧
    FlowHandle.build_sql (FlowHandle.mk sampleInner none) plainRequest =
      FlowHandle.build_sql (FlowHandle.mk sampleInner (some "demo"))
        plainRequest :=
  ⟨rfl, c3_build_sql_deterministic _ _ plainRequest rfl⟩

/-- Claim C6: at most one of the pairs (limit, offset) and (page_size,
cursor) may be present; a request mixing fields from both pairs is a
MalformedPagination error, and a request with neither pair passes the
pagination check. -/
theorem c6_pagination_exclusive (r : QueryRequest) :
    ((r.limit.isSome ∨ r.offset.isSome) ∧
       (r.page_size.isSome ∨ r.cursor.isSome) →
     checkPagination r = .error .malformedPagination) ∧
    (r.limit = none ∧ r.offset = none ∧ r.page_size = none ∧
       r.cursor = none →
     checkPagination r = .ok ()) := by
  constructor
  · rintro ⟨h₁, h₂⟩
    unfold checkPagination
    rw [if_pos]
    simp only [Bool.and_eq_true, Bool.or_eq_true]
    constructor
    · rcases h₁ with h | h
      · exact Or.inl h
      · exact Or.inr h
    · rcases h₂ with h | h
      · exact Or.inl h
      · exact Or.inr h
  · rintro ⟨h₁, h₂, h₃, h₄⟩
    unfold checkPagination
    rw [if_neg]
    simp [h₁, h₂, h₃, h₄]

/-- Witness for C6: a request mixing limit and page_size is rejected and
a request with no pagination fields passes. -/
theorem c6_pagination_exclusive_witness :
    checkPagination mixedRequest = .error .malformedPagination ∧
    checkPagination plainRequest = .ok () :=
  ⟨(c6_pagination_exclusive mixedRequest).1 ⟨Or.inl rfl, Or.inl rfl⟩,
   (c6_pagination_exclusive plainRequest).2 ⟨rfl, rfl, rfl, rfl⟩⟩

/-- Claim C1 is violated by the code: for a flow name absent from the
catalog, both GET /flows/\x7bflow\x7d and POST /flows/\x7bflow\x7d/query
answer 400, not 404 — _ensure_flow raises an HTTPException 404, but the
handlers' except-Exception wrappers catch it and re-raise it as a 400
whose detail stringifies the original 404. -/
theorem c1_unknown_flow_gets_400 :
    statusOf (describeFlow sampleHandle "nonexistent") = 400 ∧
    statusOf (queryEndpoint sampleHandle echoExec "nonexistent"
      emptyPayload) = 400 ∧
    describeFlow sampleHandle "nonexistent" =
      .error (.http 400 "404: unknown flow nonexistent") ∧
    queryEndpoint sampleHandle echoExec "nonexistent" emptyPayload =
      .error (.http 400 "404: unknown flow nonexistent") ∧
    (400 : Nat) ≠ 404 :=
  ⟨rfl, rfl, rfl, rfl, by decide⟩

/-- Claim C2 is violated by the code: QueryPayload declares no page_size
or cursor field, so pydantic silently drops them from any request body
and the payload forwarded to execute never carries them; the repository
pagination tests expect them forwarded. -/
theorem c2_page_size_never_forwarded :
    parseQueryPayload bodyWithPageSize = .ok pagePayload ∧
    hasKey (forwardedPayload "simple_orders" pagePayload) "page_size" =
      false ∧
    hasKey (forwardedPayload "simple_orders" pagePayload) "cursor" =
      false ∧
    queryEndpoint sampleHandle echoExec "simple_orders" pagePayload =
      .ok (.pydict
        [("dimensions", .pylist [.pystr "o.status"]),
         ("measures", .pylist [.pystr "o.order_total"]),
         ("flow", .pystr "simple_orders")]) ∧
    (∀ (flow : String) (p : QueryPayload),
      hasKey (forwardedPayload flow p) "page_size" = false) ∧
    (∀ (flow : String) (p : QueryPayload),
      hasKey (forwardedPayload flow p) "cursor" = false) := by
  refine ⟨rfl, rfl, rfl, rfl, ?_, ?_⟩ <;>
    · intro flow p
      rcases p with ⟨d, m, f, o, l, off⟩
      cases d <;> cases m <;> cases f <;> cases o <;> cases l <;>
        cases off <;>
        simp [forwardedPayload, dictExcludeNone, setKey, hasKey]

theorem hasKey_flow_dictExcludeNone (p : QueryPayload) :
    hasKey (dictExcludeNone p) "flow" = false := by
  rcases p with ⟨d, m, f, o, l, off⟩
  cases d <;> cases m <;> cases f <;> cases o <;> cases l <;> cases off <;>
    simp [dictExcludeNone, hasKey]

theorem lookup_setKey {v : PyVal} (d : PyDict) (k : String)
    (h : hasKey d k = false) : (setKey d k v).lookup k = some v := by
  induction d with
  | nil => simp [setKey, List.lookup]
  | cons kv rest ih =>
      rcases kv with ⟨k₀, v₀⟩
      simp only [hasKey, Bool.or_eq_false_iff, decide_eq_false_iff_not] at h
      have hbeq : (k == k₀) = false := by
        simp only [beq_eq_false_iff_ne, ne_eq]
        exact fun hk => h.1 hk.symm
      simp only [setKey, if_neg h.1, List.lookup, hbeq]
      exact ih h.2

theorem forwarded_no_none (flow : String) (p : QueryPayload) :
    (forwardedPayload flow p).all (fun kv => !noneValued kv.2) = true := by
  rcases p with ⟨d, m, f, o, l, off⟩
  cases d <;> cases m <;> cases f <;> cases o <;> cases l <;> cases off <;>
    simp [forwardedPayload, dictExcludeNone, setKey, noneValued]

/-- Claim C10: for every body accepted by the query endpoint, the
payload forwarded to execute carries the path segment as its flow key —
a flow value in the request body can never override it — and no
None-valued field survives into the forwarded payload. -/
theorem c10_flow_forced_and_none_stripped (flow : String) (body : PyDict)
    (p : QueryPayload) (_hbody : parseQueryPayload body = .ok p) :
    (forwardedPayload flow p).lookup "flow" = some (.pystr flow) ∧
    ∀ kv ∈ forwardedPayload flow p, kv.2 ≠ PyVal.pynone := by
  constructor
  · exact lookup_setKey (dictExcludeNone p) "flow"
      (hasKey_flow_dictExcludeNone p)
  · intro kv hkv
    have hall := forwarded_no_none flow p
    rw [List.all_eq_true] at hall
    have hkv2 := hall kv hkv
    intro hno
    rw [hno] at hkv2
    simp [noneValued] at hkv2

/-- Witness for C10: a body naming a different flow parses, yet the
forwarded payload carries the path flow and no None values. -/
theorem c10_flow_forced_witness :
    parseQueryPayload bodyWithFlow = .ok flowPayload ∧
    (forwardedPayload "sales" flowPayload).lookup "flow" =
      some (.pystr "sales") ∧
    ∀ kv ∈ forwardedPayload "sales" flowPayload, kv.2 ≠ PyVal.pynone :=
  ⟨rfl,
   (c10_flow_forced_and_none_stripped "sales" bodyWithFlow flowPayload
      rfl).1,
   (c10_flow_forced_and_none_stripped "sales" bodyWithFlow flowPayload
      rfl).2⟩

theorem addTables_any_none (ts : List SemanticTable) :
    ∀ uniq dss, ts.any (fun t => t.data_source.isNone) = true →
      addTables uniq dss ts = .error (.valueError dsMsg) := by
  induction ts with
  | nil => intro uniq dss h; simp at h
  | cons t rest ih =>
      intro uniq dss h
      cases hds : t.data_source with
      | none => simp [addTables, hds]
      | some ds =>
          simp only [List.any_cons, hds, Option.isSome_some,
            Option.isNone_some, Bool.false_or] at h
          simp only [addTables, hds]
          exact ih _ _ h

theorem addTables_all_some (ts : List SemanticTable) :
    ∀ uniq dss, ts.any (fun t => t.data_source.isNone) = false →
      ∃ pr, addTables uniq dss ts = .ok pr := by
  induction ts with
  | nil => intro uniq dss _; exact ⟨_, rfl⟩
  | cons t rest ih =>
      intro uniq dss h
      cases hds : t.data_source with
      | none => rw [List.any_cons, hds] at h; simp at h
      | some ds =>
          rw [List.any_cons, hds] at h
          simp only [Option.isNone_some, Bool.false_or] at h
          simp only [addTables, hds]
          exact ih _ _ h

theorem offenseOf_bind_ok {α β : Type} (x : Except PyError α)
    (g : α → β) : offenseOf (x >>= fun r => Except.ok (g r)) =
      offenseOf x := by
  cases x with
  | ok a => rfl
  | error e => cases e <;> rfl

theorem buildLoop_offense (entries : List (String × FlowsVal)) :
    ∀ uniq dss acc, offenseOf (buildLoop uniq dss acc entries) =
      firstOffense entries := by
  induction entries with
  | nil => intro uniq dss acc; rfl
  | cons e rest ih =>
      intro uniq dss acc
      rcases e with ⟨k, v⟩
      cases v with
      | otherVal => rfl
      | flowVal f =>
          cases hany : f.referenced_tables.any
              (fun t => t.data_source.isNone) with
          | true =>
              simp only [buildLoop, firstOffense, hany, if_true]
              rw [addTables_any_none _ _ _ hany]
              rfl
          | false =>
              obtain ⟨pr, hpr⟩ := addTables_all_some _ _ _ hany
              simp only [buildLoop, firstOffense, hany, if_false]
              rw [hpr]
              exact ih _ _ _

/-- Claim C8 amended: build_flow_handles raises at the first offending
entry in mapping iteration order — TypeError for a non-Mapping or empty
argument and for a value that is not a SemanticFlow, ValueError for a
referenced table lacking a data source — and constructs no handle in
any of these cases. -/
theorem c8_first_offense :
    (∀ entries : List (String × FlowsVal), entries ≠ [] →
      offenseOf (build_flow_handles (.mapping entries)) =
        firstOffense entries) ∧
    offenseOf (build_flow_handles .notMapping) = some .tErr ∧
    offenseOf (build_flow_handles (.mapping [])) = some .tErr := by
  refine ⟨?_, rfl, rfl⟩
  intro entries hne
  cases entries with
  | nil => exact absurd rfl hne
  | cons e rest =>
      rw [← buildLoop_offense (e :: rest) [] [] []]
      simp only [build_flow_handles]
      cases hx : buildLoop [] [] [] (e :: rest) with
      | ok res => rfl
      | error err => cases err <;> rfl

/-- Witness for the amended C8 at a one-entry mapping whose value is not
a SemanticFlow. -/
theorem c8_first_offense_witness :
    offenseOf (build_flow_handles (.mapping wEntries)) =
      firstOffense wEntries :=
  c8_first_offense.1 wEntries (by simp [wEntries])

/-- Counterexample to C8 as stated: in a mapping whose first value is a
SemanticFlow with a data-source-less table and whose second value is not
a SemanticFlow, some value is not a SemanticFlow yet the raised
exception is the ValueError, not the promised TypeError. -/
theorem c8_counterexample :
    (∃ e ∈ cxEntries, e.2 = FlowsVal.otherVal) ∧
    build_flow_handles (.mapping cxEntries) =
      .error (.valueError dsMsg) ∧
    ∀ m, build_flow_handles (.mapping cxEntries) ≠
      .error (.typeError m) := by
  refine ⟨⟨("b", FlowsVal.otherVal), by simp [cxEntries], rfl⟩, rfl, ?_⟩
  intro m hm
  rw [show build_flow_handles (.mapping cxEntries) =
    .error (.valueError dsMsg) from rfl] at hm
  injection hm with hm₂
  exact PyError.noConfusion hm₂

theorem assocSet_append {α : Type} (d : List (String × α)) (k : String)
    (v : α) (h : ∀ kv ∈ d, kv.1 ≠ k) : assocSet d k v = d ++ [(k, v)] := by
  induction d with
  | nil => rfl
  | cons kv rest ih =>
      rcases kv with ⟨k₀, v₀⟩
      have hne : k₀ ≠ k := h (k₀, v₀) (List.mem_cons_self _ _)
      simp only [assocSet, if_neg hne, List.cons_append, List.cons.injEq,
        true_and]
      exact ih (fun kv hkv => h kv (List.mem_cons_of_mem _ hkv))

theorem lookup_entry_map {γ α : Type} (key : γ → String) (val : γ → α)
    (l : List γ) (hnd : (l.map key).Nodup) :
    ∀ x ∈ l, (l.map (fun a => (key a, val a))).lookup (key x) =
      some (val x) := by
  induction l with
  | nil => intro x hx; cases hx
  | cons y rest ih =>
      intro x hx
      rcases List.mem_cons.mp hx with hxy | hxr
      · subst hxy
        simp [List.lookup]
      · have hne : key x ≠ key y := by
          intro hk
          have : key y ∈ rest.map key := hk ▸ List.mem_map_of_mem key hxr
          exact (List.nodup_cons.mp hnd).1 this
        have hbeq : (key x == key y) = false := by
          simp only [beq_eq_false_iff_ne, ne_eq]
          exact hne
        simp only [List.map_cons, List.lookup, hbeq]
        exact ih (List.nodup_cons.mp hnd).2 x hxr

theorem listFlowsGo_ok (l : List PyDict) :
    ∀ acc, (∀ s ∈ l, summaryWF s) →
      (∀ s ∈ l, ∀ kv ∈ acc, kv.1 ≠ nameStr s) →
      ((l.map nameStr).Nodup) →
      listFlowsGo l acc = .ok (acc ++ l.map summaryEntry) := by
  induction l with
  | nil => intro acc _ _ _; simp [listFlowsGo]
  | cons s rest ih =>
      intro acc hwf hfresh hnd
      obtain ⟨⟨n, hn⟩, hdesc⟩ := hwf s (List.mem_cons_self _ _)
      have hname : nameStr s = n := by simp [nameStr, hn]
      have haccn : ∀ kv ∈ acc, kv.1 ≠ n := by
        intro kv hkv
        have := hfresh s (List.mem_cons_self _ _) kv hkv
        rwa [hname] at this
      have hfresh' : ∀ (v : Option String) (s' : PyDict), s' ∈ rest →
          ∀ kv ∈ acc ++ [(n, v)], kv.1 ≠ nameStr s' := by
        intro v s' hs' kv hkv
        rcases List.mem_append.mp hkv with hkv | hkv
        · exact hfresh s' (List.mem_cons_of_mem _ hs') kv hkv
        · simp only [List.mem_singleton] at hkv
          subst hkv
          intro hk
          have hmem : nameStr s' ∈ rest.map nameStr :=
            List.mem_map_of_mem nameStr hs'
          rw [← hk, ← hname] at hmem
          exact (List.nodup_cons.mp hnd).1 hmem
      have hwf' : ∀ s' ∈ rest, summaryWF s' :=
        fun s' hs' => hwf s' (List.mem_cons_of_mem _ hs')
      have hnd' : (rest.map nameStr).Nodup := (List.nodup_cons.mp hnd).2
      rcases hdesc with hd | ⟨ds, hd⟩
      · simp only [listFlowsGo, hn, hd]
        rw [assocSet_append acc n none haccn,
          ih (acc ++ [(n, none)]) hwf' (hfresh' none) hnd']
        simp [summaryEntry, hname, hd, strOrNone]
      · simp only [listFlowsGo, hn, hd]
        rw [assocSet_append acc n (some ds) haccn,
          ih (acc ++ [(n, some ds)]) hwf' (hfresh' (some ds)) hnd']
        simp [summaryEntry, hname, hd, strOrNone]

theorem listFlowsGo_error (l : List PyDict) :
    ∀ acc, (∃ s ∈ l, ¬ summaryWF s) →
      ∃ d, listFlowsGo l acc = .error (.http 500 d) := by
  induction l with
  | nil => intro acc h; simp at h
  | cons s rest ih =>
      intro acc hex
      by_cases hws : summaryWF s
      · obtain ⟨⟨n, hn⟩, hdesc⟩ := hws
        have hex' : ∃ s' ∈ rest, ¬ summaryWF s' := by
          rcases hex with ⟨s', hs', hbad⟩
          rcases List.mem_cons.mp hs' with hss | hsr
          · subst hss
            exact absurd ⟨⟨n, hn⟩, hdesc⟩ hbad
          · exact ⟨s', hsr, hbad⟩
        rcases hdesc with hd | ⟨ds, hd⟩
        · simp only [listFlowsGo, hn, hd]
          exact ih _ hex'
        · simp only [listFlowsGo, hn, hd]
          exact ih _ hex'
      · cases hn : pyGet s "name" with
        | pystr n =>
            cases hd : pyGet s "description" with
            | pynone => exact absurd ⟨⟨n, hn⟩, Or.inl hd⟩ hws
            | pystr ds => exact absurd ⟨⟨n, hn⟩, Or.inr ⟨ds, hd⟩⟩ hws
            | pybool b =>
                exact ⟨"flow " ++ n ++ " description must be a string or None",
                  by simp [listFlowsGo, hn, hd]⟩
            | pyint m =>
                exact ⟨"flow " ++ n ++ " description must be a string or None",
                  by simp [listFlowsGo, hn, hd]⟩
            | pylist xs =>
                exact ⟨"flow " ++ n ++ " description must be a string or None",
                  by simp [listFlowsGo, hn, hd]⟩
            | pydict dd =>
                exact ⟨"flow " ++ n ++ " description must be a string or None",
                  by simp [listFlowsGo, hn, hd]⟩
        | pynone => exact ⟨"flow summary missing name", by simp [listFlowsGo, hn]⟩
        | pybool b => exact ⟨"flow summary missing name", by simp [listFlowsGo, hn]⟩
        | pyint m => exact ⟨"flow summary missing name", by simp [listFlowsGo, hn]⟩
        | pylist xs => exact ⟨"flow summary missing name", by simp [listFlowsGo, hn]⟩
        | pydict dd => exact ⟨"flow summary missing name", by simp [listFlowsGo, hn]⟩

/-- Claim C4: when every flow summary carries a string name and a
string-or-None description, GET /flows answers the map sending each
flow's name to its description (None for absent); when any summary is
malformed, the endpoint fails with an HTTP 500. -/
theorem c4_list_flows (h : FlowHandle) :
    ((∀ s ∈ FlowHandle.list_flows h, summaryWF s) →
     ((FlowHandle.list_flows h).map nameStr).Nodup →
     ∃ m, listFlowsEndpoint h = .ok m ∧
       ∀ s ∈ FlowHandle.list_flows h,
         m.lookup (nameStr s) = some (strOrNone (pyGet s "description"))) ∧
    ((∃ s ∈ FlowHandle.list_flows h, ¬ summaryWF s) →
     ∃ d, listFlowsEndpoint h = .error (.http 500 d)) := by
  constructor
  · intro hwf hnd
    refine ⟨(FlowHandle.list_flows h).map summaryEntry, ?_, ?_⟩
    · have := listFlowsGo_ok (FlowHandle.list_flows h) [] hwf
        (by intro s _ kv hkv; cases hkv) hnd
      simpa [listFlowsEndpoint] using this
    · intro s hs
      have := lookup_entry_map nameStr
        (fun s => strOrNone (pyGet s "description"))
        (FlowHandle.list_flows h) hnd s hs
      simpa [summaryEntry] using this
  · intro hex
    exact listFlowsGo_error (FlowHandle.list_flows h) [] hex

/-- Witness for C4 at the sample handle with one well-formed summary. -/
theorem c4_list_flows_witness :
    ∃ m, listFlowsEndpoint sampleHandle = .ok m ∧
      ∀ s ∈ FlowHandle.list_flows sampleHandle,
        m.lookup (nameStr s) = some (strOrNone (pyGet s "description")) :=
  (c4_list_flows sampleHandle).1
    (by
      intro s hs
      simp only [FlowHandle.list_flows, InnerHandle.list_flows,
        sampleHandle, sampleInner, sampleSummaries,
        List.mem_singleton] at hs
      subst hs
      exact ⟨⟨"simple_orders", rfl⟩, Or.inl rfl⟩)
    (by
      simp [FlowHandle.list_flows, InnerHandle.list_flows, sampleHandle,
        sampleInner, sampleSummaries])

theorem exceptBind_ok {ε α β : Type} (a : α) (f : α → Except ε β) :
    (Except.ok a >>= f) = f a :=
  rfl

theorem exceptPure_eq {ε α : Type} (a : α) :
    (pure a : Except ε α) = Except.ok a :=
  rfl

theorem buildFieldMap_dicts (ds : List PyDict) :
    ∀ (acc : List (String × FieldInfo)) (flowName label : String),
      (∀ d ∈ ds, ∃ q, pyGet d "qualified_name" = .pystr q ∧ q ≠ "") →
      (∀ d ∈ ds, ∀ kv ∈ acc, kv.1 ≠ fieldKey d) →
      ((ds.map fieldKey).Nodup) →
      buildFieldMap flowName label (ds.map PyVal.pydict) acc =
        .ok (acc ++ ds.map fieldEntry) := by
  induction ds with
  | nil => intro acc fn lb _ _ _; simp [buildFieldMap]
  | cons d rest ih =>
      intro acc fn lb hq hfresh hnd
      obtain ⟨q, hqd, hqe⟩ := hq d (List.mem_cons_self _ _)
      have htr : pyTruthy (PyVal.pystr q) = true := by
        simp [pyTruthy, hqe]
      have hkey : fieldKey d = q := by
        simp [fieldKey, hqd, pyTruthy, hqe]
      have haccq : ∀ kv ∈ acc, kv.1 ≠ q :=
        fun kv hkv => hkey ▸ hfresh d (List.mem_cons_self _ _) kv hkv
      have hfresh' : ∀ d' ∈ rest,
          ∀ kv ∈ acc ++
            [(q, FieldInfo.mk (strOrNone (pyGet d "description"))
              (strOrNone (pyGet d "data_type")))],
          kv.1 ≠ fieldKey d' := by
        intro d' hd' kv hkv
        rcases List.mem_append.mp hkv with hkv | hkv
        · exact hfresh d' (List.mem_cons_of_mem _ hd') kv hkv
        · simp only [List.mem_singleton] at hkv
          subst hkv
          intro hk
          have hmem : fieldKey d' ∈ rest.map fieldKey :=
            List.mem_map_of_mem fieldKey hd'
          rw [← hk, ← hkey] at hmem
          exact (List.nodup_cons.mp hnd).1 hmem
      have hq' : ∀ d' ∈ rest, ∃ q', pyGet d' "qualified_name" = .pystr q' ∧
          q' ≠ "" :=
        fun d' hd' => hq d' (List.mem_cons_of_mem _ hd')
      have hnd' : (rest.map fieldKey).Nodup := (List.nodup_cons.mp hnd).2
      have hstep : buildFieldMap fn lb
          (PyVal.pydict d :: rest.map PyVal.pydict) acc =
          buildFieldMap fn lb (rest.map PyVal.pydict)
            (assocSet acc q
              (FieldInfo.mk (strOrNone (pyGet d "description"))
                (strOrNone (pyGet d "data_type")))) := by
        simp [buildFieldMap, hqd, htr]
      rw [List.map_cons, hstep, assocSet_append acc q _ haccq,
        ih _ fn lb hq' hfresh' hnd']
      simp [fieldEntry, hkey]

/-- Claim C5: for every known flow whose schema dict is well formed —
string name, string-or-None description and time_dimension, dimensions
and measures lists of dicts each carrying a non-empty string
qualified_name, with distinct keys — GET /flows/\x7bflow\x7d returns the
schema object carrying the flow's name, description and time_dimension,
and its dimensions and measures as maps from each field's qualified
name to its description and data_type, with non-string values replaced
by None. -/
theorem c5_describe_flow (h : FlowHandle) (w : String) (schema : PyDict)
    (nm : String) (dimDicts measDicts : List PyDict)
    (h_names : containsStr
      ((FlowHandle.list_flows h).map (fun m => pyGet m "name")) w = true)
    (h_schema : h.inner.flowSchemas.lookup w = some schema)
    (hn : pyGet schema "name" = .pystr nm)
    (hd : pyGet schema "description" = .pynone ∨
      ∃ s, pyGet schema "description" = .pystr s)
    (ht : pyGet schema "time_dimension" = .pynone ∨
      ∃ s, pyGet schema "time_dimension" = .pystr s)
    (hdims : pyGetD schema "dimensions" (.pylist []) =
      .pylist (dimDicts.map PyVal.pydict))
    (hmeas : pyGetD schema "measures" (.pylist []) =
      .pylist (measDicts.map PyVal.pydict))
    (hqd : ∀ d ∈ dimDicts, ∃ q, pyGet d "qualified_name" = .pystr q ∧
      q ≠ "")
    (hqm : ∀ d ∈ measDicts, ∃ q, pyGet d "qualified_name" = .pystr q ∧
      q ≠ "")
    (hndd : (dimDicts.map fieldKey).Nodup)
    (hndm : (measDicts.map fieldKey).Nodup) :
    describeFlow h w = .ok
      (FlowSchemaResponse.mk nm (strOrNone (pyGet schema "description"))
        (strOrNone (pyGet schema "time_dimension"))
        (dimDicts.map fieldEntry) (measDicts.map fieldEntry)) ∧
    (∀ d ∈ dimDicts, (dimDicts.map fieldEntry).lookup (fieldKey d) =
      some (FieldInfo.mk (strOrNone (pyGet d "description"))
        (strOrNone (pyGet d "data_type")))) ∧
    (∀ d ∈ measDicts, (measDicts.map fieldEntry).lookup (fieldKey d) =
      some (FieldInfo.mk (strOrNone (pyGet d "description"))
        (strOrNone (pyGet d "data_type")))) := by
  have hens : ensureFlow h w = .ok () := by
    simp [ensureFlow, h_names]
  have hget : FlowHandle.get_flow h w = .ok schema := by
    simp [FlowHandle.get_flow, InnerHandle.get_flow, h_schema]
  have hbd : buildFieldMap nm "dimension" (dimDicts.map PyVal.pydict) [] =
      .ok (dimDicts.map fieldEntry) := by
    simpa using buildFieldMap_dicts dimDicts [] nm "dimension" hqd
      (by intro d _ kv hkv; cases hkv) hndd
  have hbm : buildFieldMap nm "measure" (measDicts.map PyVal.pydict) [] =
      .ok (measDicts.map fieldEntry) := by
    simpa using buildFieldMap_dicts measDicts [] nm "measure" hqm
      (by intro d _ kv hkv; cases hkv) hndm
  refine ⟨?_, ?_, ?_⟩
  · rcases hd with hd | ⟨s₀, hd⟩ <;> rcases ht with ht | ⟨t₀, ht⟩ <;>
      simp [describeFlow, describeFlowBody, tryWrap, hens, hget, hn, hd,
        hdims, hmeas, hbd, hbm, ht, pyIter, strOrNone, exceptBind_ok,
        exceptPure_eq]
  · intro d hdm
    have := lookup_entry_map fieldKey
      (fun d => FieldInfo.mk (strOrNone (pyGet d "description"))
        (strOrNone (pyGet d "data_type"))) dimDicts hndd d hdm
    simpa [fieldEntry] using this
  · intro d hdm
    have := lookup_entry_map fieldKey
      (fun d => FieldInfo.mk (strOrNone (pyGet d "description"))
        (strOrNone (pyGet d "data_type"))) measDicts hndm d hdm
    simpa [fieldEntry] using this

/-- Witness for C5 at the sample handle: the endpoint answers the
rendered schema of simple_orders, with the measure's non-string
data_type replaced by None. -/
theorem c5_describe_flow_witness :
    describeFlow sampleHandle "simple_orders" = .ok
      (FlowSchemaResponse.mk "simple_orders"
        (strOrNone (pyGet sampleSchema "description"))
        (strOrNone (pyGet sampleSchema "time_dimension"))
        (sampleDimDicts.map fieldEntry) (sampleMeasDicts.map fieldEntry)) :=
  (c5_describe_flow sampleHandle "simple_orders" sampleSchema
    "simple_orders" sampleDimDicts sampleMeasDicts rfl rfl rfl
    (Or.inr ⟨"orders rolled up", rfl⟩) (Or.inl rfl) rfl rfl
    (by
      intro d hmem
      simp only [sampleDimDicts, List.mem_singleton] at hmem
      subst hmem
      exact ⟨"o.status", rfl, by decide⟩)
    (by
      intro d hmem
      simp only [sampleMeasDicts, List.mem_singleton] at hmem
      subst hmem
      exact ⟨"o.order_total", rfl, by decide⟩)
    (by simp [sampleDimDicts])
    (by simp [sampleMeasDicts])).1

end SemaFlow
